import Mathlib

/-!
Shallow embedding of the multi-protocol naming-service dispatcher
(`src/Resolution.ts`) of hewigovens/resolution.

The dispatcher routes each domain to one of several backends (ENS, ZNS, CNS
when running against the blockchain directly, or a centralized API proxy).
The backends themselves are external collaborators: they are modelled as an
abstract record of functions (`NamingService`), so every theorem below is
universally quantified over backend behaviour.

JavaScript conventions modelled explicitly:
  * a promise that fulfills with `v` is `Except.ok v`; a promise that rejects
    with error `e` (or a synchronous `throw e`) is `Except.error e`;
  * `null`/`undefined` results are `Option.none`;
  * accessing a property of `undefined` throws a `TypeError`, modelled as
    `JsError.other "TypeError"`;
  * `x || y` on a string-or-nullish value yields `y` when `x` is falsy
    (null, undefined or the empty string).
-/

/-- Modelled from the spec: the error-code enumeration of
`src/resolutionError.ts`, which is not part of the available sources.
Section 7 of the spec lists the closed taxonomy. -/
inductive ResolutionErrorCode
  | UnsupportedDomain
  | UnsupportedNetwork
  | UnregisteredDomain
  | UnspecifiedCurrency
  | RecordNotFound
  deriving DecidableEq, Repr

/-- Modelled from the spec: the structured diagnostic context carried by a
resolution error (spec section 7: `{domain}`, `{currencyTicker}`,
`{recordName}`). -/
structure ErrorContext where
  domain : Option String := none
  currencyTicker : Option String := none
  recordName : Option String := none
  deriving DecidableEq, Repr

/-- Modelled from the spec: a `ResolutionError` of `src/resolutionError.ts`
carries a closed-set code plus a context mapping (spec sections 3 and 7). -/
structure ResolutionError where
  code : ResolutionErrorCode
  context : ErrorContext := {}
  deriving DecidableEq, Repr

/-- A JavaScript error value as seen by the dispatcher: either a
`ResolutionError` (the taxonomy of section 7) or any other error class
(TypeError, network transport failures, ...), identified by its class name. -/
inductive JsError
  | resolution (err : ResolutionError)
  | other (name : String)
  deriving DecidableEq, Repr

/-- Whether a JavaScript error value is an `instanceof ResolutionError`. -/
def JsError.isResolutionError : JsError → Bool
  | .resolution _ => true
  | .other _ => false

/-- Modelled from the spec: the `meta` block of a resolution response
(`src/types.ts` is not part of the available sources; spec section 3 requires
at least an `owner` field, address string or absent/null). -/
structure ResponseMeta where
  owner : Option String
  deriving DecidableEq, Repr

/-- Modelled from the spec: a resolution response (`src/types.ts`), an
`addresses` mapping from currency ticker to address plus a `meta` block. -/
structure ResolutionResponse where
  addresses : List (String × String)
  meta : ResponseMeta
  deriving DecidableEq, Repr

/-- Modelled from the spec: the unclaimed-domain sentinel constant of
`src/types.ts` — empty `addresses` mapping and `owner = null`
(spec sections 3 and 6). -/
def UnclaimedDomainResponse : ResolutionResponse :=
  { addresses := [], meta := { owner := none } }

/-- The capability interface every backend satisfies (`src/namingService.ts`
is not part of the available sources; the shape is fixed by the calls the
dispatcher makes in `src/Resolution.ts` and by spec section 4.1).
Async operations return `Except JsError _` (fulfilled or rejected promise);
`namehash` and `serviceName` are synchronous and pure.  `reverse` is the
protocol-specific extension implemented by the ENS backend only; the
dispatcher invokes it solely on its `ens` slot. -/
structure NamingService where
  isSupportedDomain : String → Bool
  isSupportedNetwork : Bool
  resolve : String → Except JsError (Option ResolutionResponse)
  address : String → String → Except JsError String
  owner : String → Except JsError (Option String)
  record : String → String → Except JsError String
  namehash : String → String
  serviceName : String → String
  reverse : String → String → Except JsError String

/-- One per-protocol field of the `blockchain` configuration object:
absent (`undefined`), `false`, `true`, or a concrete `{url, network}`
source description. -/
inductive ProtoConf
  | undef
  | boolFalse
  | boolTrue
  | endpoint (url : String) (network : String)
  deriving DecidableEq, Repr

/-- JavaScript truthiness of a per-protocol configuration field:
`undefined` and `false` are falsy, `true` and any object are truthy. -/
def ProtoConf.truthy : ProtoConf → Bool
  | .undef => false
  | .boolFalse => false
  | .boolTrue => true
  | .endpoint _ _ => true

/-- The defaulting step of the constructor: `if (blockchain.x === undefined)
blockchain.x = true` — an absent field becomes `true`, others are kept. -/
def ProtoConf.orDefault : ProtoConf → ProtoConf
  | .undef => .boolTrue
  | p => p

/-- The `blockchain` constructor option: a boolean or a per-protocol object
with `ens`, `zns`, `cns` fields. -/
inductive BlockchainConf
  | bool (b : Bool)
  | obj (ens zns cns : ProtoConf)
  deriving DecidableEq, Repr

/-- JavaScript truthiness of the `blockchain` option: `false` is falsy,
`true` and any object (even `{}`) are truthy. -/
def BlockchainConf.truthy : BlockchainConf → Bool
  | .bool b => b
  | .obj _ _ _ => true

/-- The `api` constructor option, `{url}`. -/
structure API where
  url : String
  deriving DecidableEq, Repr

/-- Modelled from the spec: the `DefaultAPI` constant of `src/types.ts`
(not part of the available sources) — the well-known default endpoint of the
centralized proxy; the URL appears in the repository test helpers. -/
def DefaultAPI : API := { url := "https://unstoppabledomains.com/api/v1" }

/-- The constructor argument `{ blockchain?, api? }`; `none` models an absent
(undefined) option. -/
structure Config where
  blockchain : Option BlockchainConf := none
  api : Option API := none

/-- The backend constructors `new Ens(conf)`, `new Zns(conf)`, `new Cns(conf)`
and `new Udapi(url)` imported by the dispatcher.  They are external
collaborators, so they are abstracted as an arbitrary factory record. -/
structure Backends where
  mkEns : ProtoConf → NamingService
  mkZns : ProtoConf → NamingService
  mkCns : ProtoConf → NamingService
  mkUdapi : String → NamingService

/-- The dispatcher state fixed at construction: the `blockchain` flag
(`!!blockchain`) and the four optional backend slots. -/
structure Resolution where
  blockchain : Bool
  ens : Option NamingService := none
  zns : Option NamingService := none
  cns : Option NamingService := none
  api : Option NamingService := none

/-- The direct-backend branch of the constructor: default each absent field to
`true`, then construct each backend whose field is truthy. -/
def buildDirect (B : Backends) (e z c : ProtoConf) : Resolution :=
  let e := e.orDefault
  let z := z.orDefault
  let c := c.orDefault
  { blockchain := true
    ens := if e.truthy then some (B.mkEns e) else none
    zns := if z.truthy then some (B.mkZns z) else none
    cns := if c.truthy then some (B.mkCns c) else none
    api := none }

/-- The constructor of `Resolution` (src/Resolution.ts lines 39-66), returning
both the constructed dispatcher and the post-construction state of the
caller-supplied `blockchain` argument (the constructor assigns `true` into the
absent `ens`/`zns`/`cns` fields of a caller-supplied object in place; when the
argument is a boolean the local rebinding `blockchain = {}` leaves the
caller's primitive unchanged, and `none` means no argument was passed). -/
def Resolution.constructP (B : Backends) (cfg : Config) :
    Resolution × Option BlockchainConf :=
  let api := cfg.api.getD DefaultAPI
  match cfg.blockchain.getD (.bool true) with
  | .bool false =>
      ({ blockchain := false, api := some (B.mkUdapi api.url) }, cfg.blockchain)
  | .bool true =>
      (buildDirect B .undef .undef .undef, cfg.blockchain)
  | .obj e z c =>
      (buildDirect B e z c, some (.obj e.orDefault z.orDefault c.orDefault))

/-- The constructed dispatcher (`new Resolution(cfg)`). -/
def Resolution.construct (B : Backends) (cfg : Config) : Resolution :=
  (Resolution.constructP B cfg).1

/-- The ordered backend-slot list built inside `getNamingMethod`:
`[this.ens, this.zns, this.cns]` when `this.blockchain` is set, `[this.api]`
otherwise. -/
def Resolution.backendList (r : Resolution) : List (Option NamingService) :=
  if r.blockchain then [r.ens, r.zns, r.cns] else [r.api]

/-- `getNamingMethod` (src/Resolution.ts lines 214-222): `methods.find(method
=> method && method.isSupportedDomain(domain))`, yielding the first configured
backend supporting the domain, or `undefined`. -/
def Resolution.getNamingMethod (r : Resolution) (domain : String) :
    Option NamingService :=
  (r.backendList.find? (fun m =>
      match m with
      | some svc => svc.isSupportedDomain domain
      | none => false)).bind id

/-- `getNamingMethodOrThrow` (lines 224-231): throw
`ResolutionError(UnsupportedDomain, {domain})` when no backend matched. -/
def Resolution.getNamingMethodOrThrow (r : Resolution) (domain : String) :
    Except JsError NamingService :=
  match r.getNamingMethod domain with
  | none => .error (.resolution ⟨.UnsupportedDomain, { domain := some domain }⟩)
  | some m => .ok m

/-- `resolve` (lines 74-78): select or throw, await the backend `resolve`,
and replace a falsy (null/undefined) result by the unclaimed sentinel. -/
def Resolution.resolve (r : Resolution) (domain : String) :
    Except JsError ResolutionResponse :=
  match r.getNamingMethodOrThrow domain with
  | .error e => .error e
  | .ok method =>
      match method.resolve domain with
      | .error e => .error e
      | .ok result => .ok (result.getD UnclaimedDomainResponse)

/-- `addressOrThrow` (lines 150-156): select or throw, delegate to the backend
`address`. -/
def Resolution.addressOrThrow (r : Resolution) (domain currencyTicker : String) :
    Except JsError String :=
  match r.getNamingMethodOrThrow domain with
  | .error e => .error e
  | .ok method => method.address domain currencyTicker

/-- `address` (lines 87-100): call `addressOrThrow`; an error that is
`instanceof ResolutionError` becomes a `null` return, any other error is
rethrown. -/
def Resolution.address (r : Resolution) (domain currencyTicker : String) :
    Except JsError (Option String) :=
  match r.addressOrThrow domain currencyTicker with
  | .ok value => .ok (some value)
  | .error (.resolution _) => .ok none
  | .error e => .error e

/-- `ipfsHash` (lines 108-113): select or throw, delegate to the backend
`record` with key `ipfs.html.value`. -/
def Resolution.ipfsHash (r : Resolution) (domain : String) :
    Except JsError String :=
  match r.getNamingMethodOrThrow domain with
  | .error e => .error e
  | .ok method => method.record domain "ipfs.html.value"

/-- `ipfsRedirect` (lines 121-126): key `ipfs.redirect_domain.value`. -/
def Resolution.ipfsRedirect (r : Resolution) (domain : String) :
    Except JsError String :=
  match r.getNamingMethodOrThrow domain with
  | .error e => .error e
  | .ok method => method.record domain "ipfs.redirect_domain.value"

/-- `email` (lines 134-139): key `whois.email.value`. -/
def Resolution.email (r : Resolution) (domain : String) :
    Except JsError String :=
  match r.getNamingMethodOrThrow domain with
  | .error e => .error e
  | .ok method => method.record domain "whois.email.value"

/-- The JavaScript coercion `x || null` on a string-or-nullish value:
null, undefined and the empty string are falsy and become null. -/
def jsStringOrNull : Option String → Option String
  | none => none
  | some s => if s = "" then none else some s

/-- `owner` (lines 163-166): `const method = this.getNamingMethod(domain);
return (await method.owner(domain)) || null;`.  When no backend matches,
`method` is `undefined` and the property access `method.owner` throws a
`TypeError`, rejecting the returned promise. -/
def Resolution.owner (r : Resolution) (domain : String) :
    Except JsError (Option String) :=
  match r.getNamingMethod domain with
  | none => .error (.other "TypeError")
  | some method =>
      match method.owner domain with
      | .error e => .error e
      | .ok value => .ok (jsStringOrNull value)

/-- `reverse` (lines 175-177): `return await this.ens.reverse(address,
currencyTicker)` — direct delegation to the `ens` slot without suffix-based
selection; when `this.ens` is `undefined` the property access throws a
`TypeError`. -/
def Resolution.reverse (r : Resolution) (address currencyTicker : String) :
    Except JsError String :=
  match r.ens with
  | none => .error (.other "TypeError")
  | some ens => ens.reverse address currencyTicker

/-- `namehash` (lines 185-187): select or throw, delegate to the synchronous
backend `namehash`. -/
def Resolution.namehash (r : Resolution) (domain : String) :
    Except JsError String :=
  match r.getNamingMethodOrThrow domain with
  | .error e => .error e
  | .ok method => .ok (method.namehash domain)

/-- `isSupportedDomain` (lines 193-195): `!!this.getNamingMethod(domain)`. -/
def Resolution.isSupportedDomain (r : Resolution) (domain : String) : Bool :=
  (r.getNamingMethod domain).isSome

/-- `isSupportedDomainInNetwork` (lines 201-204): `method &&
method.isSupportedNetwork()` — the value is `undefined` (modelled `none`) when
no backend matches, otherwise the matched backend's boolean. -/
def Resolution.isSupportedDomainInNetwork (r : Resolution) (domain : String) :
    Option Bool :=
  (r.getNamingMethod domain).map (fun method => method.isSupportedNetwork)

/-- `serviceName` (lines 206-208): select or throw, delegate. -/
def Resolution.serviceName (r : Resolution) (domain : String) :
    Except JsError String :=
  match r.getNamingMethodOrThrow domain with
  | .error e => .error e
  | .ok method => .ok (method.serviceName domain)

/-- Spec-side selection function, following the words of the spec: iterate the
configured backend set in its fixed construction order, skip slots that are
not configured, and return the first backend whose `isSupportedDomain` is
true. -/
def firstSupported (domain : String) :
    List (Option NamingService) → Option NamingService
  | [] => none
  | none :: rest => firstSupported domain rest
  | some svc :: rest =>
      if svc.isSupportedDomain domain then some svc
      else firstSupported domain rest

/-- A sample backend supporting every domain or none, used to instantiate the
universally quantified theorems at concrete inputs. -/
def sampleService (supported : Bool) : NamingService :=
  { isSupportedDomain := fun _ => supported
    isSupportedNetwork := true
    resolve := fun _ => .ok none
    address := fun _ _ => .ok "0xabc"
    owner := fun _ => .ok (some "")
    record := fun _ _ => .error (.resolution ⟨.RecordNotFound, {}⟩)
    namehash := fun _ => "0xhash"
    serviceName := fun _ => "ENS"
    reverse := fun _ _ => .ok "domain.eth" }

/-- A sample backend factory: direct backends support every domain, the proxy
supports none. -/
def sampleBackends : Backends :=
  { mkEns := fun _ => sampleService true
    mkZns := fun _ => sampleService true
    mkCns := fun _ => sampleService true
    mkUdapi := fun _ => sampleService false }

/-- A dispatcher constructed with all three direct backends disabled: the
blockchain flag is truthy but every backend slot is empty, so no domain is
supported. -/
def noBackendRes : Resolution :=
  Resolution.construct sampleBackends
    { blockchain := some (.obj .boolFalse .boolFalse .boolFalse) }

/-- A dispatcher constructed with the default configuration (all three direct
backends enabled with default endpoints). -/
def allRes : Resolution :=
  Resolution.construct sampleBackends {}

/-- A dispatcher constructed in proxy mode (`blockchain: false`). -/
def apiRes : Resolution :=
  Resolution.construct sampleBackends { blockchain := some (.bool false) }

/-- The `find`-based selection of the source coincides with the spec-side
first-supported iteration on any slot list. -/
theorem find_eq_firstSupported (domain : String)
    (l : List (Option NamingService)) :
    (l.find? (fun m =>
        match m with
        | some svc => svc.isSupportedDomain domain
        | none => false)).bind id = firstSupported domain l := by
  induction l with
  | nil => rfl
  | cons hd tl ih =>
      cases hd with
      | none => simpa [List.find?, firstSupported] using ih
      | some svc =>
          by_cases h : svc.isSupportedDomain domain
          · simp [List.find?, firstSupported, h]
          · simpa [List.find?, firstSupported, h] using ih

/-- C1: for every dispatcher and domain, backend selection iterates the
backend slots in their fixed construction order — `[ens, zns, cns]` when the
blockchain configuration was truthy, `[api]` otherwise — skipping slots that
are not configured, and returns the first backend whose `isSupportedDomain`
holds. -/
theorem c1_selection_first_in_order (r : Resolution) (domain : String) :
    r.getNamingMethod domain =
      firstSupported domain
        (if r.blockchain then [r.ens, r.zns, r.cns] else [r.api]) := by
  rw [Resolution.getNamingMethod, Resolution.backendList]
  exact find_eq_firstSupported domain _

/-- C2 counterexample: with every direct backend disabled no backend matches
`brad.zil`, and `owner` rejects with a `TypeError` instead of returning the
claimed `null`. -/
theorem c2_counterexample :
    noBackendRes.getNamingMethod "brad.zil" = none ∧
    noBackendRes.owner "brad.zil" = .error (.other "TypeError") ∧
    noBackendRes.owner "brad.zil" ≠ .ok none := by
  have h : noBackendRes.owner "brad.zil" = .error (.other "TypeError") := rfl
  refine ⟨rfl, h, ?_⟩
  rw [h]
  exact fun hk => Except.noConfusion hk

/-- C2 (amended): `owner` selects via the non-throwing selector but
dereferences its result unconditionally.  When no configured backend matches
the domain, the call rejects with a `TypeError` (not a `ResolutionError`);
when a backend matches, `owner` returns the backend result with falsy values
(null, undefined, empty string) mapped to `null`, and propagates backend
errors unchanged. -/
theorem c2_owner_behaviour (r : Resolution) (domain : String) :
    (r.getNamingMethod domain = none →
      r.owner domain = .error (.other "TypeError")) ∧
    (∀ m, r.getNamingMethod domain = some m →
      r.owner domain = (m.owner domain).map jsStringOrNull) := by
  constructor
  · intro h
    simp [Resolution.owner, h]
  · intro m hm
    simp only [Resolution.owner, hm]
    cases m.owner domain <;> rfl

/-- C2 witness: the empty-backend dispatcher fails with a `TypeError`, and a
dispatcher whose matched backend reports the falsy owner `""` returns
`null`. -/
theorem c2_owner_behaviour_witness :
    noBackendRes.owner "brad.zil" = .error (.other "TypeError") ∧
    allRes.owner "brad.zil" = .ok none :=
  ⟨(c2_owner_behaviour noBackendRes "brad.zil").1 rfl,
   ((c2_owner_behaviour allRes "brad.zil").2 (sampleService true) rfl).trans rfl⟩

/-- When `addressOrThrow` fulfills, `address` fulfills with the same value. -/
theorem address_ok_case (r : Resolution) (d t v : String)
    (h : r.addressOrThrow d t = .ok v) : r.address d t = .ok (some v) := by
  rw [Resolution.address, h]

/-- When `addressOrThrow` rejects with a `ResolutionError`, `address` returns
`null`. -/
theorem address_resolution_case (r : Resolution) (d t : String)
    (err : ResolutionError)
    (h : r.addressOrThrow d t = .error (.resolution err)) :
    r.address d t = .ok none := by
  rw [Resolution.address, h]

/-- When `addressOrThrow` rejects with a non-resolution error, `address`
rethrows it unchanged. -/
theorem address_other_case (r : Resolution) (d t n : String)
    (h : r.addressOrThrow d t = .error (.other n)) :
    r.address d t = .error (.other n) := by
  rw [Resolution.address, h]

/-- C3: `address` never rejects with a `ResolutionError`; it returns `null`
exactly when `addressOrThrow` rejects with a `ResolutionError` (of any code),
returns `addressOrThrow`'s value otherwise, and propagates non-resolution
errors unchanged. -/
theorem c3_address_never_resolution_error (r : Resolution)
    (domain currencyTicker : String) :
    (∀ err, r.address domain currencyTicker ≠ .error (.resolution err)) ∧
    (r.address domain currencyTicker = .ok none ↔
      ∃ err, r.addressOrThrow domain currencyTicker = .error (.resolution err)) ∧
    (∀ value, r.addressOrThrow domain currencyTicker = .ok value →
      r.address domain currencyTicker = .ok (some value)) ∧
    (∀ e, e.isResolutionError = false →
      (r.address domain currencyTicker = .error e ↔
        r.addressOrThrow domain currencyTicker = .error e)) := by
  refine ⟨?_, ?_, ?_, ?_⟩
  · intro err h
    rcases haot : r.addressOrThrow domain currencyTicker with e | v
    · cases e with
      | resolution e2 =>
          rw [address_resolution_case r domain currencyTicker e2 haot] at h
          exact Except.noConfusion h
      | other name =>
          rw [address_other_case r domain currencyTicker name haot] at h
          rw [Except.error.injEq] at h
          exact JsError.noConfusion h
    · rw [address_ok_case r domain currencyTicker v haot] at h
      exact Except.noConfusion h
  · rcases haot : r.addressOrThrow domain currencyTicker with e | v
    · cases e with
      | resolution err =>
          rw [address_resolution_case r domain currencyTicker err haot]
          exact iff_of_true rfl ⟨err, rfl⟩
      | other name =>
          rw [address_other_case r domain currencyTicker name haot]
          refine iff_of_false (fun hk => Except.noConfusion hk) ?_
          rintro ⟨err, herr⟩
          rw [Except.error.injEq] at herr
          exact JsError.noConfusion herr
    · rw [address_ok_case r domain currencyTicker v haot]
      refine iff_of_false ?_ ?_
      · intro hk
        rw [Except.ok.injEq] at hk
        exact Option.noConfusion hk
      · rintro ⟨err, herr⟩
        exact Except.noConfusion herr
  · intro value h
    exact address_ok_case r domain currencyTicker value h
  · intro e he
    rcases haot : r.addressOrThrow domain currencyTicker with e' | v
    · cases e' with
      | resolution err =>
          rw [address_resolution_case r domain currencyTicker err haot]
          refine iff_of_false (fun hk => Except.noConfusion hk) ?_
          intro hk
          rw [Except.error.injEq] at hk
          rw [← hk] at he
          simp [JsError.isResolutionError] at he
      | other name =>
          rw [address_other_case r domain currencyTicker name haot]
          constructor
          · intro hk
            rw [Except.error.injEq] at hk
            rw [hk]
          · intro hk
            rw [Except.error.injEq] at hk
            rw [hk]
    · rw [address_ok_case r domain currencyTicker v haot]
      exact iff_of_false (fun hk => Except.noConfusion hk)
        (fun hk => Except.noConfusion hk)

/-- C3 witness: on an unsupported domain, `addressOrThrow` rejects with a
`ResolutionError`, so `address` returns `null`. -/
theorem c3_address_never_resolution_error_witness :
    noBackendRes.address "domain.qq" "ZIL" = .ok none :=
  (c3_address_never_resolution_error noBackendRes "domain.qq" "ZIL").2.1.mpr
    ⟨⟨.UnsupportedDomain, { domain := some "domain.qq" }⟩, rfl⟩

/-- When no configured backend supports the domain, selection yields
`undefined`. -/
theorem getNamingMethod_eq_none (r : Resolution) (domain : String)
    (h : ∀ svc, some svc ∈ r.backendList → svc.isSupportedDomain domain = false) :
    r.getNamingMethod domain = none := by
  rw [Resolution.getNamingMethod]
  have hf : r.backendList.find? (fun m =>
      match m with
      | some svc => svc.isSupportedDomain domain
      | none => false) = none := by
    rw [List.find?_eq_none]
    intro m hm
    cases m with
    | none => simp
    | some svc => simpa using h svc hm
  rw [hf]
  rfl

/-- When selection yields `undefined`, the throwing selector rejects with
`UnsupportedDomain` carrying the domain in its context. -/
theorem getNamingMethodOrThrow_unsupported (r : Resolution) (domain : String)
    (h : r.getNamingMethod domain = none) :
    r.getNamingMethodOrThrow domain =
      .error (.resolution ⟨.UnsupportedDomain, { domain := some domain }⟩) := by
  rw [Resolution.getNamingMethodOrThrow, h]

/-- When selection matches a backend, the throwing selector returns it. -/
theorem getNamingMethodOrThrow_ok (r : Resolution) (domain : String)
    (m : NamingService) (h : r.getNamingMethod domain = some m) :
    r.getNamingMethodOrThrow domain = .ok m := by
  rw [Resolution.getNamingMethodOrThrow, h]

/-- C4: on a domain supported by no configured backend, each throwing
operation (`resolve`, `addressOrThrow`, `ipfsHash`, `ipfsRedirect`, `email`,
`namehash`, `serviceName`) rejects with a `ResolutionError` of code
`UnsupportedDomain` carrying the domain in its context, and
`isSupportedDomain` returns false.  (`namehash` and `serviceName` throw the
error synchronously — in the source they are plain, non-async methods.) -/
theorem c4_unsupported_domain_failures (r : Resolution)
    (domain currencyTicker : String)
    (h : ∀ svc, some svc ∈ r.backendList → svc.isSupportedDomain domain = false) :
    r.resolve domain =
      .error (.resolution ⟨.UnsupportedDomain, { domain := some domain }⟩) ∧
    r.addressOrThrow domain currencyTicker =
      .error (.resolution ⟨.UnsupportedDomain, { domain := some domain }⟩) ∧
    r.ipfsHash domain =
      .error (.resolution ⟨.UnsupportedDomain, { domain := some domain }⟩) ∧
    r.ipfsRedirect domain =
      .error (.resolution ⟨.UnsupportedDomain, { domain := some domain }⟩) ∧
    r.email domain =
      .error (.resolution ⟨.UnsupportedDomain, { domain := some domain }⟩) ∧
    r.namehash domain =
      .error (.resolution ⟨.UnsupportedDomain, { domain := some domain }⟩) ∧
    r.serviceName domain =
      .error (.resolution ⟨.UnsupportedDomain, { domain := some domain }⟩) ∧
    r.isSupportedDomain domain = false := by
  have hn := getNamingMethod_eq_none r domain h
  have ht := getNamingMethodOrThrow_unsupported r domain hn
  refine ⟨?_, ?_, ?_, ?_, ?_, ?_, ?_, ?_⟩
  · rw [Resolution.resolve, ht]
  · rw [Resolution.addressOrThrow, ht]
  · rw [Resolution.ipfsHash, ht]
  · rw [Resolution.ipfsRedirect, ht]
  · rw [Resolution.email, ht]
  · rw [Resolution.namehash, ht]
  · rw [Resolution.serviceName, ht]
  · rw [Resolution.isSupportedDomain, hn]
    rfl

/-- C4 witness: the empty-backend dispatcher fails every throwing operation on
`brad.zil` with `UnsupportedDomain` and reports the domain unsupported. -/
theorem c4_unsupported_domain_failures_witness :
    noBackendRes.resolve "brad.zil" =
      .error (.resolution ⟨.UnsupportedDomain, { domain := some "brad.zil" }⟩) ∧
    noBackendRes.addressOrThrow "brad.zil" "ZIL" =
      .error (.resolution ⟨.UnsupportedDomain, { domain := some "brad.zil" }⟩) ∧
    noBackendRes.ipfsHash "brad.zil" =
      .error (.resolution ⟨.UnsupportedDomain, { domain := some "brad.zil" }⟩) ∧
    noBackendRes.ipfsRedirect "brad.zil" =
      .error (.resolution ⟨.UnsupportedDomain, { domain := some "brad.zil" }⟩) ∧
    noBackendRes.email "brad.zil" =
      .error (.resolution ⟨.UnsupportedDomain, { domain := some "brad.zil" }⟩) ∧
    noBackendRes.namehash "brad.zil" =
      .error (.resolution ⟨.UnsupportedDomain, { domain := some "brad.zil" }⟩) ∧
    noBackendRes.serviceName "brad.zil" =
      .error (.resolution ⟨.UnsupportedDomain, { domain := some "brad.zil" }⟩) ∧
    noBackendRes.isSupportedDomain "brad.zil" = false :=
  c4_unsupported_domain_failures noBackendRes "brad.zil" "ZIL" (by
    intro svc hm
    rw [show noBackendRes.backendList = [none, none, none] from rfl] at hm
    simp at hm)

/-- When the throwing selector returns a backend, `resolve` is the backend
`resolve` with a falsy result replaced by the sentinel. -/
theorem resolve_ok_case (r : Resolution) (domain : String) (m : NamingService)
    (hm : r.getNamingMethodOrThrow domain = .ok m) :
    r.resolve domain =
      match m.resolve domain with
      | .error e => .error e
      | .ok result => .ok (result.getD UnclaimedDomainResponse) := by
  rw [Resolution.resolve, hm]

/-- C5: when the selected backend's `resolve` fulfills with null/absent, the
dispatcher's `resolve` fulfills (never rejects) with the unclaimed sentinel
`{ addresses: {}, meta: { owner: null } }`; when the backend fulfills with a
response, `resolve` returns that response unchanged. -/
theorem c5_resolve_unclaimed_sentinel (r : Resolution) (domain : String)
    (m : NamingService) (resp : ResolutionResponse)
    (hm : r.getNamingMethod domain = some m) :
    (m.resolve domain = .ok none →
      r.resolve domain = .ok { addresses := [], meta := { owner := none } } ∧
      r.resolve domain = .ok UnclaimedDomainResponse) ∧
    (m.resolve domain = .ok (some resp) → r.resolve domain = .ok resp) := by
  have ht := getNamingMethodOrThrow_ok r domain m hm
  have hc := resolve_ok_case r domain m ht
  constructor
  · intro hres
    rw [hc, hres]
    exact ⟨rfl, rfl⟩
  · intro hres
    rw [hc, hres]
    rfl

/-- C5 witness: a dispatcher whose matched backend reports the domain as
recognized but unclaimed returns the sentinel. -/
theorem c5_resolve_unclaimed_sentinel_witness :
    allRes.resolve "brad.zil" = .ok UnclaimedDomainResponse :=
  ((c5_resolve_unclaimed_sentinel allRes "brad.zil" (sampleService true)
      UnclaimedDomainResponse rfl).1 rfl).2

/-- C6: constructing with `blockchain` absent or `true` enables all three
direct backends with the default (`true`) endpoint configuration; a
per-protocol object enables each of ens/zns/cns exactly when its field is
absent or truthy and disables it when the field is `false`, with no proxy;
`blockchain: false` constructs exactly the centralized proxy from the given
or default API url. -/
theorem c6_construction_modes (B : Backends) (cfg : Config) :
    ((cfg.blockchain = none ∨ cfg.blockchain = some (.bool true)) →
      Resolution.construct B cfg =
        { blockchain := true
          ens := some (B.mkEns .boolTrue)
          zns := some (B.mkZns .boolTrue)
          cns := some (B.mkCns .boolTrue)
          api := none }) ∧
    (∀ e z c, cfg.blockchain = some (.obj e z c) →
      (Resolution.construct B cfg).blockchain = true ∧
      ((Resolution.construct B cfg).ens.isSome = true ↔
        (e = .undef ∨ e.truthy = true)) ∧
      ((Resolution.construct B cfg).zns.isSome = true ↔
        (z = .undef ∨ z.truthy = true)) ∧
      ((Resolution.construct B cfg).cns.isSome = true ↔
        (c = .undef ∨ c.truthy = true)) ∧
      (e = .boolFalse → (Resolution.construct B cfg).ens = none) ∧
      (z = .boolFalse → (Resolution.construct B cfg).zns = none) ∧
      (c = .boolFalse → (Resolution.construct B cfg).cns = none) ∧
      (Resolution.construct B cfg).api = none) ∧
    (cfg.blockchain = some (.bool false) →
      Resolution.construct B cfg =
        { blockchain := false
          ens := none
          zns := none
          cns := none
          api := some (B.mkUdapi ((cfg.api.getD DefaultAPI).url)) }) := by
  obtain ⟨bc, a⟩ := cfg
  refine ⟨?_, ?_, ?_⟩
  · rintro (h | h)
    · have h' : bc = none := h
      subst h'
      rfl
    · have h' : bc = some (.bool true) := h
      subst h'
      rfl
  · intro e z c h
    have h' : bc = some (.obj e z c) := h
    subst h'
    refine ⟨rfl, ?_, ?_, ?_, ?_, ?_, ?_, rfl⟩
    · cases e <;> simp [Resolution.construct, Resolution.constructP, buildDirect,
        ProtoConf.orDefault, ProtoConf.truthy]
    · cases z <;> simp [Resolution.construct, Resolution.constructP, buildDirect,
        ProtoConf.orDefault, ProtoConf.truthy]
    · cases c <;> simp [Resolution.construct, Resolution.constructP, buildDirect,
        ProtoConf.orDefault, ProtoConf.truthy]
    · intro he
      subst he
      rfl
    · intro hz
      subst hz
      rfl
    · intro hc
      subst hc
      rfl
  · intro h
    have h' : bc = some (.bool false) := h
    subst h'
    rfl

/-- A sample per-protocol configuration: ens absent, zns disabled, cns with a
concrete endpoint. -/
def cfgMixed : Config :=
  { blockchain :=
      some (.obj .undef .boolFalse (.endpoint "https://mainnet.infura.io" "mainnet")) }

/-- C6 witness: the mixed configuration enables ens (absent field defaults to
enabled) and cns (truthy endpoint), disables zns, and builds no proxy; proxy
mode builds only the proxy. -/
theorem c6_construction_modes_witness :
    (Resolution.construct sampleBackends cfgMixed).blockchain = true ∧
    (Resolution.construct sampleBackends cfgMixed).ens.isSome = true ∧
    (Resolution.construct sampleBackends cfgMixed).zns = none ∧
    (Resolution.construct sampleBackends cfgMixed).cns.isSome = true ∧
    (Resolution.construct sampleBackends cfgMixed).api = none ∧
    apiRes.ens = none ∧
    apiRes.api = some (sampleBackends.mkUdapi DefaultAPI.url) := by
  have h := (c6_construction_modes sampleBackends cfgMixed).2.1 .undef .boolFalse
    (.endpoint "https://mainnet.infura.io" "mainnet") rfl
  have hp := (c6_construction_modes sampleBackends
    { blockchain := some (.bool false) }).2.2 rfl
  refine ⟨h.1, h.2.1.mpr (Or.inl rfl), h.2.2.2.2.2.1 rfl,
    h.2.2.2.1.mpr (Or.inr rfl), h.2.2.2.2.2.2.2, ?_, ?_⟩
  · rw [show apiRes =
      Resolution.construct sampleBackends { blockchain := some (.bool false) }
      from rfl, hp]
  · rw [show apiRes =
      Resolution.construct sampleBackends { blockchain := some (.bool false) }
      from rfl, hp]
    rfl

/-- C7: `isSupportedDomainInNetwork` is `true` exactly when the first matching
backend exists and its network test holds; it never rejects, and on no match
it evaluates to `undefined` — falsy, but not the strict boolean `false`. -/
theorem c7_isSupportedDomainInNetwork_spec (r : Resolution) (domain : String) :
    (r.isSupportedDomainInNetwork domain = some true ↔
      ∃ m, r.getNamingMethod domain = some m ∧ m.isSupportedNetwork = true) ∧
    (r.getNamingMethod domain = none →
      r.isSupportedDomainInNetwork domain = none ∧
      r.isSupportedDomainInNetwork domain ≠ some false) := by
  constructor
  · rw [Resolution.isSupportedDomainInNetwork]
    rcases hg : r.getNamingMethod domain with _ | m
    · simp
    · simp
  · intro h
    rw [Resolution.isSupportedDomainInNetwork, h]
    exact ⟨rfl, fun hk => Option.noConfusion hk⟩

/-- C7 witness: with every backend matching, the network-aware test is `true`;
with no backend matching it is `undefined`, not `false`. -/
theorem c7_isSupportedDomainInNetwork_spec_witness :
    allRes.isSupportedDomainInNetwork "brad.zil" = some true ∧
    noBackendRes.isSupportedDomainInNetwork "brad.zil" = none :=
  ⟨(c7_isSupportedDomainInNetwork_spec allRes "brad.zil").1.mpr
      ⟨sampleService true, rfl, rfl⟩,
   ((c7_isSupportedDomainInNetwork_spec noBackendRes "brad.zil").2 rfl).1⟩

/-- C8: for a domain with a matching backend, `ipfsHash`, `ipfsRedirect` and
`email` are exactly the backend `record` call with the keys
`ipfs.html.value`, `ipfs.redirect_domain.value` and `whois.email.value`, so
backend fulfillments and rejections (notably `RecordNotFound`) pass through
unchanged. -/
theorem c8_record_keys (r : Resolution) (domain : String) (m : NamingService)
    (hm : r.getNamingMethod domain = some m) :
    r.ipfsHash domain = m.record domain "ipfs.html.value" ∧
    r.ipfsRedirect domain = m.record domain "ipfs.redirect_domain.value" ∧
    r.email domain = m.record domain "whois.email.value" := by
  have ht := getNamingMethodOrThrow_ok r domain m hm
  refine ⟨?_, ?_, ?_⟩
  · rw [Resolution.ipfsHash, ht]
  · rw [Resolution.ipfsRedirect, ht]
  · rw [Resolution.email, ht]

/-- C8 witness: a backend with no email record makes `email` reject with
`RecordNotFound`. -/
theorem c8_record_keys_witness :
    allRes.email "brad.zil" = .error (.resolution ⟨.RecordNotFound, {}⟩) :=
  ((c8_record_keys allRes "brad.zil" (sampleService true) rfl).2.2).trans rfl

/-- C9: `reverse` delegates directly to the `ens` slot for any address,
without suffix-based backend selection; when the ENS backend is not
configured the call rejects with a `TypeError` — never with a
`ResolutionError` of the resolution taxonomy. -/
theorem c9_reverse_direct_delegation (r : Resolution)
    (address currencyTicker : String) :
    (∀ ens, r.ens = some ens →
      r.reverse address currencyTicker = ens.reverse address currencyTicker) ∧
    (r.ens = none →
      r.reverse address currencyTicker = .error (.other "TypeError") ∧
      ∀ err, r.reverse address currencyTicker ≠ .error (.resolution err)) := by
  constructor
  · intro ens h
    rw [Resolution.reverse, h]
  · intro h
    rw [Resolution.reverse, h]
    refine ⟨rfl, ?_⟩
    intro err hk
    have hk' : (Except.error (JsError.other "TypeError") : Except JsError String)
        = .error (.resolution err) := hk
    rw [Except.error.injEq] at hk'
    exact JsError.noConfusion hk'

/-- C9 witness: in proxy mode the `ens` slot is empty and `reverse` rejects
with a `TypeError`. -/
theorem c9_reverse_direct_delegation_witness :
    apiRes.reverse "0x1234" "ETH" = .error (.other "TypeError") :=
  ((c9_reverse_direct_delegation apiRes "0x1234" "ETH").2 rfl).1

/-- C10: given a per-protocol configuration object, the constructor writes
`true` into each of the caller's absent ens/zns/cns fields in place, so
whenever some field was absent the caller's object is changed by
construction. -/
theorem c10_constructor_mutates_config (B : Backends) (e z c : ProtoConf) :
    ((Resolution.constructP B { blockchain := some (.obj e z c) }).2 =
      some (.obj e.orDefault z.orDefault c.orDefault)) ∧
    (e = .undef → e.orDefault = .boolTrue) ∧
    (z = .undef → z.orDefault = .boolTrue) ∧
    (c = .undef → c.orDefault = .boolTrue) ∧
    ((e = .undef ∨ z = .undef ∨ c = .undef) →
      (Resolution.constructP B { blockchain := some (.obj e z c) }).2 ≠
        some (.obj e z c)) := by
  refine ⟨rfl, fun h => by subst h; rfl, fun h => by subst h; rfl,
    fun h => by subst h; rfl, ?_⟩
  intro h hk
  rw [show (Resolution.constructP B { blockchain := some (.obj e z c) }).2 =
      some (.obj e.orDefault z.orDefault c.orDefault) from rfl] at hk
  rw [Option.some.injEq] at hk
  rcases h with h | h | h <;> subst h <;> simp [ProtoConf.orDefault] at hk

/-- C10 witness: with ens absent, zns `true` and cns `false`, the caller's
object ends with ens rewritten to `true` and is no longer the object that was
passed in. -/
theorem c10_constructor_mutates_config_witness :
    (Resolution.constructP sampleBackends
        { blockchain := some (.obj .undef .boolTrue .boolFalse) }).2 =
      some (.obj .boolTrue .boolTrue .boolFalse) ∧
    (Resolution.constructP sampleBackends
        { blockchain := some (.obj .undef .boolTrue .boolFalse) }).2 ≠
      some (.obj .undef .boolTrue .boolFalse) :=
  ⟨(c10_constructor_mutates_config sampleBackends .undef .boolTrue .boolFalse).1,
   (c10_constructor_mutates_config sampleBackends
      .undef .boolTrue .boolFalse).2.2.2.2 (Or.inl rfl)⟩
